import Mathlib

/-!
Verification of the USSSSR sleep-event reactor.

The definitions below are a shallow embedding of the Go source:
the timeout calculator (`setTimeout`, `updateTimeout`), the event
loop `loop` (embedded as a `step` function over the loop's state
plus an explicit model of the Go `time.Timer` as seen by the
loop), and the `Handle` signal classifiers of the systemd and
debug backends.  Durations and instants are nanosecond counts
(`Int`, the value space of Go's `time.Duration`/monotonic clock).
-/

namespace Ussssr

/-- The fields of the global `conf` struct that the event loop and
timeout calculator read: `bg` (the `-b` flag, run command in the
background) and `delay` (the `-d` flag, delay after command,
default `defaultDelay`).  The remaining fields (`cmd`, `debug`,
`logLevel`) only select the spawned command and the log verbosity
and do not influence the control logic modelled here. -/
structure Config where
  bg : Bool
  delay : Int
  deriving Repr, DecidableEq

/-- `defaultTimeout = 5 * time.Second`: default max inhibit time,
in nanoseconds. -/
def defaultTimeout : Int := 5000000000

/-- `defaultDelay = 500 * time.Millisecond`: default delay after
command, in nanoseconds. -/
def defaultDelay : Int := 500000000

/-- Errors observable by the loop and the backends. `dbusSignal`
is `ErrDBusSignal` ("invalid D-Bus signal"); the others stand for
the dynamic errors returned by `inhibit`/`MaxInhibit`. -/
inductive GoError
  | dbusSignal
  | inhibitFailed
  | other
  deriving Repr, DecidableEq

/-- Go's `x >> 4` on a signed 64-bit duration: arithmetic shift
right by 4, i.e. floor division by 16. -/
def shr4 (x : Int) : Int := Int.fdiv x 16

/-- `setTimeout` (part_000 lines 120-129): reduce `max` by the
1/16 safety margin; in background mode cap it to `conf.delay`;
store it into `*timeout` when it changed (the stored value is the
computed one either way; the guard only gates a debug log). -/
def setTimeout (conf : Config) (timeout : Int) (max : Int) : Int :=
  let max1 := max - shr4 max
  let max2 := if conf.bg = true ∧ max1 > conf.delay then conf.delay else max1
  if max2 ≠ timeout then max2 else timeout

/-- `updateTimeout` (part_000 lines 131-137): query the backend's
`MaxInhibit`; on error only log; otherwise apply `setTimeout`
when the reported maximum is non-negative (a negative value means
the query is unsupported). The query's result is passed in as
`maxInhibit`. -/
def updateTimeout (conf : Config) (timeout : Int)
    (maxInhibit : Except GoError Int) : Int :=
  match maxInhibit with
  | .error _ => timeout
  | .ok max => if max ≥ 0 then setTimeout conf timeout max else timeout

/-- The loop's view of the single-shot release timer
(`release = time.NewTimer(...)`).  `pending` records a
fired-but-unconsumed expiry sitting in the timer's channel;
`armed` records the deadline of a currently armed timer.  Go's
`Reset` does not clear a stale pending value, which is exactly
the double-release hazard the loop's drain pattern guards
against. -/
structure Timer where
  pending : Bool
  armed : Option Int
  deriving Repr, DecidableEq

/-- `release.Stop()`: returns whether the timer was armed, and
disarms it.  A pending fired value is left in the channel. -/
def Timer.stop (t : Timer) : Bool × Timer :=
  (t.armed.isSome, { t with armed := none })

/-- The loop's drain pattern
`if !release.Stop() { <-release.C }`: stop the timer and, when
`Stop` reports it already fired, consume the pending value. -/
def Timer.stopDrain (t : Timer) : Timer :=
  if t.armed.isSome then { t with armed := none }
  else { pending := false, armed := none }

/-- `release.Reset(d)` executed at instant `now + d = deadline`:
arm the timer for `deadline`.  A stale pending value (if any) is
untouched, as in Go. -/
def Timer.reset (t : Timer) (deadline : Int) : Timer :=
  { t with armed := some deadline }

/-- The runtime delivering an armed timer's expiry into its
channel once the deadline has passed. -/
def Timer.fire (_ : Timer) : Timer :=
  { pending := true, armed := none }

/-- The loop's state (part_000 lines 187-194): `locked` (sleep
actively inhibited / release timer running), `running` (command
is running), `start` (command start time), `timeout` (inhibit
release timeout), plus the release timer. -/
structure State where
  locked : Bool
  running : Bool
  start : Int
  timeout : Int
  timer : Timer
  deriving Repr, DecidableEq

/-- The outcome of `be.Handle(sig)` as the loop dispatches on it:
an error (logged and ignored), a wakeup classification, or a
sleep classification.  For a sleep signal the loop may go on to
call `run` and `updateTimeout`, so the event carries the results
those calls would produce: `runOk` (did `run(stopped)` return
nil) and `mi` (result of `be.MaxInhibit()`). -/
inductive HandleRes
  | err
  | wakeup
  | sleep (runOk : Bool) (mi : Except GoError Int)
  deriving Repr

/-- One event consumed by an iteration of the loop's `select`,
plus the runtime's delivery of a timer expiry (`fire`). -/
inductive Event
  | fire
  | timerExpired
  | signal (h : HandleRes)
  | stopped (ok : Bool)
  deriving Repr

/-- Observable actions of one loop iteration: whether `run` was
invoked, whether `be.Release()` was invoked, and how many
`release.Reset` calls were made. -/
structure Out where
  ran : Bool
  released : Bool
  arms : Nat
  deriving Repr, DecidableEq

def noOut : Out := ⟨false, false, 0⟩

/-- One iteration of the event loop (part_000 lines 205-294),
handling a single event at wall-clock instant `now`, plus the
`fire` transition of the timer runtime.  Events whose guard does
not hold (an expiry consumed while none is pending, a `fire` of
an unarmed timer) cannot be selected in Go and are no-ops. -/
def step (conf : Config) (s : State) (now : Int) (e : Event) : State × Out :=
  match e with
  | .fire =>
      match s.timer.armed with
      | some d => if d ≤ now then ({ s with timer := s.timer.fire }, noOut)
                  else (s, noOut)
      | none => (s, noOut)
  | .timerExpired =>
      -- case <-release.C: locked = false; be.Release()
      if s.timer.pending = true then
        ({ s with locked := false, timer := { s.timer with pending := false } },
         { noOut with released := true })
      else (s, noOut)
  | .signal .err => (s, noOut)
  | .signal .wakeup =>
      -- wakeup: if locked, stop/drain the release timer, locked = false
      if s.locked = true then
        ({ s with locked := false, timer := s.timer.stopDrain }, noOut)
      else (s, noOut)
  | .signal (.sleep runOk mi) =>
      if s.running = true then
        -- already running: if not locked, lock and release immediately
        if s.locked = false then
          ({ s with locked := true, timer := s.timer.reset now },
           { noOut with arms := 1 })
        else (s, noOut)
      else
        -- not running: start = now (foreground only), drain timer if
        -- locked, locked = true, then run the command
        let start1 := if conf.bg = false then now else s.start
        let t1 := if s.locked = true then s.timer.stopDrain else s.timer
        if runOk = false then
          ({ s with locked := true, start := start1, timer := t1.reset now },
           { noOut with ran := true, arms := 1 })
        else
          let timeout1 := updateTimeout conf s.timeout mi
          ({ locked := true, running := true, start := start1,
             timeout := timeout1, timer := t1.reset (now + timeout1) },
           { noOut with ran := true, arms := 1 })
  | .stopped ok =>
      -- command terminated: running = false; in foreground mode,
      -- if locked, drain and rearm the release timer
      let s1 := { s with running := false }
      if s.locked = true ∧ conf.bg = false then
        let t1 := s.timer.stopDrain
        let delay : Int :=
          if ok = true then
            let d := s.timeout - (now - s.start)
            if d > conf.delay then conf.delay else d
          else 0
        ({ s1 with timer := t1.reset (now + delay) },
         { noOut with arms := 1 })
      else (s1, noOut)

/-- The loop's state after its initialisation (part_000 lines
187-203): nothing locked or running, the timer created and
immediately stopped, `timeout` initialised to `conf.delay` and
then set from `defaultTimeout` by `setTimeout`. -/
def initState (conf : Config) : State :=
  { locked := false, running := false, start := 0,
    timeout := setTimeout conf conf.delay defaultTimeout,
    timer := { pending := false, armed := none } }

/-- Accumulate one iteration's actions into running counters
`(releases, arms)`. -/
def addOut (c : Nat × Nat) (o : Out) : Nat × Nat :=
  (c.1 + (if o.released then 1 else 0), c.2 + o.arms)

/-- Run the loop over a whole trace of timed events, counting
`be.Release()` invocations and `release.Reset` calls. -/
def runTrace (conf : Config) : State → Nat × Nat → List (Int × Event) →
    State × (Nat × Nat)
  | s, c, [] => (s, c)
  | s, c, (now, e) :: tr =>
      let r := step conf s now e
      runTrace conf r.1 (addOut c r.2) tr

/-- A state the loop can reach from its initial state under some
interleaving of events. -/
def Reachable (conf : Config) (s : State) : Prop :=
  ∃ tr : List (Int × Event),
    (runTrace conf (initState conf) (0, 0) tr).1 = s

theorem shr4_eq_div (x : Int) : shr4 x = x / 16 :=
  Int.fdiv_eq_ediv x (by decide)

theorem setTimeout_val (conf : Config) (t max : Int) :
    setTimeout conf t max =
      if conf.bg = true ∧ max - max / 16 > conf.delay then conf.delay
      else max - max / 16 := by
  simp only [setTimeout, shr4_eq_div]
  split <;> split <;> omega

/-- C6: for every non-negative platform maximum `max`, the
effective timeout computed by `setTimeout` is `max - max / 16`
(the fixed 1/16 safety margin), further capped to the configured
post-command delay exactly when background mode is configured. -/
theorem setTimeout_margin_and_bg_cap (conf : Config) (t max : Int)
    (h : 0 ≤ max) :
    setTimeout conf t max =
      if conf.bg = true then min (max - max / 16) conf.delay
      else max - max / 16 := by
  rw [setTimeout_val]
  rcases hb : conf.bg <;> simp [hb, min_def] <;> split <;> omega

/-- Witness for `setTimeout_margin_and_bg_cap`: at the default
5-second maximum the margin-reduced timeout is 4.6875 s in
foreground mode, and is capped to the 500 ms default delay in
background mode. -/
theorem setTimeout_margin_and_bg_cap_witness :
    (0 : Int) ≤ 5000000000 ∧
    setTimeout ⟨false, 500000000⟩ 0 5000000000 = 4687500000 ∧
    setTimeout ⟨true, 500000000⟩ 0 5000000000 = 500000000 := by
  refine ⟨by decide, ?_, ?_⟩
  · rw [setTimeout_margin_and_bg_cap ⟨false, 500000000⟩ 0 5000000000 (by decide)]
    decide
  · rw [setTimeout_margin_and_bg_cap ⟨true, 500000000⟩ 0 5000000000 (by decide)]
    decide

/-- C7 counterexample: the platform maximum `0` is non-negative
and is accepted by the timeout calculator, yet the resulting
effective timeout equals `0` — it is not strictly less than the
supplied maximum, because the `1/16` margin `0 >> 4` is zero. -/
theorem setTimeout_margin_can_vanish :
    (0 : Int) ≤ 0 ∧
    updateTimeout ⟨false, 500000000⟩ 500000000 (.ok 0) = 0 ∧
    ¬ (updateTimeout ⟨false, 500000000⟩ 500000000 (.ok 0) < 0) := by
  decide

/-- C7 (amended): for every platform maximum of at least 16
nanoseconds supplied to the timeout calculator, the effective
timeout is strictly less than that maximum (the margin `max/16`
is then non-zero); below 16 ns the margin truncates to zero and
the timeout can equal the maximum. -/
theorem setTimeout_lt_max (conf : Config) (t max : Int) (h : 16 ≤ max) :
    setTimeout conf t max < max := by
  rw [setTimeout_val]
  split <;> omega

/-- Witness for `setTimeout_lt_max` at the default 5-second
maximum. -/
theorem setTimeout_lt_max_witness :
    (16 : Int) ≤ 5000000000 ∧
    setTimeout ⟨false, 500000000⟩ 0 5000000000 < 5000000000 :=
  ⟨by decide, setTimeout_lt_max ⟨false, 500000000⟩ 0 5000000000 (by decide)⟩

/-- C10: before any platform maximum inhibit duration has been
learned from a backend, the loop's effective release timeout is
the 5-second `defaultTimeout` reduced by the 1/16 margin
(4.6875 s = 4687500000 ns) in foreground mode, and additionally
capped to the configured post-command delay in background
mode. -/
theorem initState_timeout (conf : Config) :
    (conf.bg = false → (initState conf).timeout = 4687500000) ∧
    (conf.bg = true →
      (initState conf).timeout = min 4687500000 conf.delay) := by
  constructor <;> intro hb <;>
    simp only [initState, setTimeout_val, hb, defaultTimeout] <;>
    simp [min_def] <;> split <;> omega

/-- Witness for `initState_timeout`: with the default 500 ms
delay, the initial timeout is 4.6875 s in foreground mode and
500 ms in background mode. -/
theorem initState_timeout_witness :
    (initState ⟨false, 500000000⟩).timeout = 4687500000 ∧
    (initState ⟨true, 500000000⟩).timeout = 500000000 := by
  constructor
  · exact (initState_timeout ⟨false, 500000000⟩).1 rfl
  · have h := (initState_timeout ⟨true, 500000000⟩).2 rfl
    simpa using h

/-- C1: a Sleep signal handled while `running = true` never
starts a second command (`run` is not invoked); if `locked` was
false the loop sets `locked = true` and arms the release timer to
fire immediately (deadline `now`), and if `locked` was already
true the state is unchanged and nothing is done.  Proved for
every state, a superset of the reachable ones. -/
theorem sleep_while_running (conf : Config) (s : State) (now : Int)
    (runOk : Bool) (mi : Except GoError Int) (h : s.running = true) :
    (step conf s now (.signal (.sleep runOk mi))).2.ran = false ∧
    (s.locked = false →
      step conf s now (.signal (.sleep runOk mi)) =
        ({ s with
            locked := true
            timer := { s.timer with armed := some now } },
         { noOut with arms := 1 })) ∧
    (s.locked = true →
      step conf s now (.signal (.sleep runOk mi)) = (s, noOut)) := by
  refine ⟨?_, ?_, ?_⟩ <;>
    simp only [step, h, if_pos] <;>
    rcases hl : s.locked <;>
    simp [hl, Timer.reset, noOut]

/-- Witness for `sleep_while_running` at a concrete running,
unlocked state. -/
theorem sleep_while_running_witness :
    (step ⟨false, 500000000⟩
        { locked := false, running := true, start := 0, timeout := 100,
          timer := { pending := false, armed := none } } 5
        (.signal (.sleep true (.ok 0)))).2.ran = false ∧
    ((false : Bool) = false →
      step ⟨false, 500000000⟩
        { locked := false, running := true, start := 0, timeout := 100,
          timer := { pending := false, armed := none } } 5
        (.signal (.sleep true (.ok 0))) =
        ({ locked := true, running := true, start := 0, timeout := 100,
           timer := { pending := false, armed := some 5 } },
         { noOut with arms := 1 })) ∧
    ((false : Bool) = true →
      step ⟨false, 500000000⟩
        { locked := false, running := true, start := 0, timeout := 100,
          timer := { pending := false, armed := none } } 5
        (.signal (.sleep true (.ok 0))) =
        ({ locked := false, running := true, start := 0, timeout := 100,
           timer := { pending := false, armed := none } }, noOut)) :=
  sleep_while_running ⟨false, 500000000⟩
    { locked := false, running := true, start := 0, timeout := 100,
      timer := { pending := false, armed := none } } 5 true (.ok 0) rfl

/-- Number of pending-or-armed "charges" in the timer: each
`Reset` adds at most one, a `fire` converts an armed charge into
a pending one, and a release consumes a pending charge. -/
def potential (s : State) : Nat :=
  (if s.timer.pending then 1 else 0) + (if s.timer.armed.isSome then 1 else 0)

theorem step_release_bound (conf : Config) (s : State) (now : Int) (e : Event) :
    (if (step conf s now e).2.released then 1 else 0) +
        potential (step conf s now e).1 ≤
      potential s + (step conf s now e).2.arms := by
  rcases e with _ | _ | h | ok
  case fire =>
    rcases ha : s.timer.armed with _ | d <;>
      simp [step, ha, potential, Timer.fire, noOut] <;>
      split <;> simp [ha]
  case timerExpired =>
    rcases hp : s.timer.pending <;>
      simp [step, hp, potential, noOut]
  case signal =>
    rcases h with _ | _ | ⟨runOk, mi⟩
    · simp [step, potential, noOut]
    · rcases hl : s.locked <;>
        simp [step, hl, potential, Timer.stopDrain, noOut] <;>
        split <;> simp
    · rcases hr : s.running <;> rcases hl : s.locked <;>
        rcases hk : runOk <;>
        simp [step, hr, hl, hk, potential, Timer.stopDrain, Timer.reset,
          noOut] <;>
        split <;> simp
  case stopped =>
    rcases hl : s.locked <;> rcases hb : conf.bg <;>
      simp [step, hl, hb, potential, Timer.stopDrain, Timer.reset, noOut] <;>
      split <;> simp

theorem runTrace_release_bound (conf : Config) (tr : List (Int × Event)) :
    ∀ (s : State) (c : Nat × Nat), c.1 + potential s ≤ c.2 →
      (runTrace conf s c tr).2.1 + potential (runTrace conf s c tr).1 ≤
        (runTrace conf s c tr).2.2 := by
  induction tr with
  | nil => intro s c h; simpa [runTrace] using h
  | cons a tr ih =>
      intro s c h
      simp only [runTrace]
      apply ih
      have hb := step_release_bound conf s a.1 a.2
      simp only [addOut]
      rcases hrel : (step conf s a.1 a.2).2.released <;>
        simp [hrel] at hb ⊢ <;> omega

/-- State invariant maintained by the loop: `locked` records
exactly that the release timer is armed or has an unconsumed
expiry, and the timer is never simultaneously armed and holding a
stale expiry (the drain-before-rearm discipline). -/
def Inv (s : State) : Prop :=
  (s.locked = true ↔
    (s.timer.pending = true ∨ s.timer.armed.isSome = true)) ∧
  ¬ (s.timer.pending = true ∧ s.timer.armed.isSome = true)

theorem inv_init (conf : Config) : Inv (initState conf) := by
  simp [Inv, initState]

theorem inv_step (conf : Config) (s : State) (now : Int) (e : Event)
    (h : Inv s) : Inv (step conf s now e).1 := by
  obtain ⟨h1, h2⟩ := h
  rcases e with _ | _ | hr | ok
  case fire =>
    rcases hp : s.timer.pending <;> rcases ha : s.timer.armed with _ | d <;>
      simp_all [step, Inv, Timer.fire] <;> (try split) <;> simp_all
  case timerExpired =>
    rcases hp : s.timer.pending <;> rcases ha : s.timer.armed with _ | d <;>
      simp_all [step, Inv]
  case signal =>
    rcases hr with _ | _ | ⟨runOk, mi⟩
    · simp_all [step, Inv]
    · rcases hp : s.timer.pending <;> rcases ha : s.timer.armed with _ | d <;>
        rcases hl : s.locked <;>
        simp_all [step, Inv, Timer.stopDrain]
    · rcases hg : s.running <;> rcases hl : s.locked <;> rcases hk : runOk <;>
        rcases hp : s.timer.pending <;>
        rcases ha : s.timer.armed with _ | d <;>
        simp_all [step, Inv, Timer.stopDrain, Timer.reset]
  case stopped =>
    rcases hl : s.locked <;> rcases hb : conf.bg <;>
      rcases hp : s.timer.pending <;>
      rcases ha : s.timer.armed with _ | d <;>
      simp_all [step, Inv, Timer.stopDrain, Timer.reset]

theorem inv_runTrace (conf : Config) (tr : List (Int × Event)) :
    ∀ (s : State) (c : Nat × Nat), Inv s → Inv (runTrace conf s c tr).1 := by
  induction tr with
  | nil => intro s c h; simpa [runTrace] using h
  | cons a tr ih =>
      intro s c h
      simp only [runTrace]
      exact ih _ _ (inv_step conf s a.1 a.2 h)

theorem reachable_inv (conf : Config) (s : State)
    (h : Reachable conf s) : Inv s := by
  obtain ⟨tr, rfl⟩ := h
  exact inv_runTrace conf tr _ _ (inv_init conf)

/-- C2: over every interleaving of events from the loop's initial
state (hence over every prefix of every interleaving),
`be.Release()` is invoked at most once per `release.Reset` call:
the count of release invocations never exceeds the count of timer
armings.  Moreover the drain-before-rearm discipline holds: the
timer is never left armed while a fired-but-unconsumed expiry
sits in its channel, so a single arm-to-fire cycle cannot produce
two release invocations. -/
theorem release_at_most_once_per_arm (conf : Config)
    (tr : List (Int × Event)) :
    (runTrace conf (initState conf) (0, 0) tr).2.1 ≤
      (runTrace conf (initState conf) (0, 0) tr).2.2 ∧
    ¬ ((runTrace conf (initState conf) (0, 0) tr).1.timer.pending = true ∧
       (runTrace conf (initState conf) (0, 0) tr).1.timer.armed.isSome
         = true) := by
  constructor
  · have h := runTrace_release_bound conf tr (initState conf) (0, 0)
      (by simp [potential, initState])
    omega
  · exact (inv_runTrace conf tr (initState conf) (0, 0) (inv_init conf)).2

/-- C3: in every reachable state with `locked = true`, handling a
Wakeup signal whose classification (and backend re-inhibit)
succeeded stops the release timer, drains an already-fired expiry
without performing its release action, and sets `locked = false`;
`be.Release()` is not invoked (the iteration's output is
`noOut`). -/
theorem wakeup_unlocks (conf : Config) (s : State) (now : Int)
    (hr : Reachable conf s) (h : s.locked = true) :
    step conf s now (.signal .wakeup) =
      ({ s with
          locked := false
          timer := { pending := false, armed := none } }, noOut) := by
  obtain ⟨h1, h2⟩ := reachable_inv conf s hr
  rcases hp : s.timer.pending <;> rcases ha : s.timer.armed with _ | d <;>
    simp_all [step, Timer.stopDrain]

/-- Witness for `wakeup_unlocks` at the locked state reached by a
Sleep signal whose launch failed. -/
theorem wakeup_unlocks_witness :
    step ⟨false, 500000000⟩
        { locked := true, running := false, start := 0,
          timeout := 4687500000,
          timer := { pending := false, armed := some 0 } } 7
        (.signal .wakeup) =
      ({ locked := false, running := false, start := 0,
         timeout := 4687500000,
         timer := { pending := false, armed := none } }, noOut) :=
  wakeup_unlocks ⟨false, 500000000⟩
    { locked := true, running := false, start := 0, timeout := 4687500000,
      timer := { pending := false, armed := some 0 } } 7
    ⟨[(0, .signal (.sleep false (.error .other)))], by decide⟩ rfl

/-- C4: in every reachable state with `running = false`, a Sleep
signal launches the command (`run` is invoked); on launch failure
the loop sets `locked = true` and arms the release timer to fire
immediately; on success it sets `running = true` and
`locked = true`, recomputes the effective timeout from the
backend's `MaxInhibit` query via `updateTimeout`, and arms the
release timer to that timeout. -/
theorem sleep_while_idle (conf : Config) (s : State) (now : Int)
    (runOk : Bool) (mi : Except GoError Int)
    (hr : Reachable conf s) (h : s.running = false) :
    (step conf s now (.signal (.sleep runOk mi))).2.ran = true ∧
    (runOk = false →
      step conf s now (.signal (.sleep runOk mi)) =
        ({ s with
            locked := true
            start := if conf.bg = false then now else s.start
            timer := { pending := false, armed := some now } },
         { noOut with ran := true, arms := 1 })) ∧
    (runOk = true →
      step conf s now (.signal (.sleep runOk mi)) =
        ({ locked := true, running := true,
           start := if conf.bg = false then now else s.start,
           timeout := updateTimeout conf s.timeout mi,
           timer := { pending := false,
                      armed := some (now + updateTimeout conf s.timeout mi) } },
         { noOut with ran := true, arms := 1 })) := by
  obtain ⟨h1, h2⟩ := reachable_inv conf s hr
  refine ⟨?_, ?_, ?_⟩ <;>
    rcases hk : runOk <;> rcases hl : s.locked <;>
    rcases hp : s.timer.pending <;> rcases ha : s.timer.armed with _ | d <;>
    simp_all [step, Timer.stopDrain, Timer.reset]

/-- Witness for `sleep_while_idle` at the loop's initial state. -/
theorem sleep_while_idle_witness :
    (step ⟨false, 500000000⟩ (initState ⟨false, 500000000⟩) 3
        (.signal (.sleep true (.ok 1600)))).2.ran = true ∧
    ((true : Bool) = false →
      step ⟨false, 500000000⟩ (initState ⟨false, 500000000⟩) 3
        (.signal (.sleep true (.ok 1600))) =
        ({ initState ⟨false, 500000000⟩ with
            locked := true
            start := if (⟨false, 500000000⟩ : Config).bg = false then 3
                     else (initState ⟨false, 500000000⟩).start
            timer := { pending := false, armed := some 3 } },
         { noOut with ran := true, arms := 1 })) ∧
    ((true : Bool) = true →
      step ⟨false, 500000000⟩ (initState ⟨false, 500000000⟩) 3
        (.signal (.sleep true (.ok 1600))) =
        ({ locked := true, running := true,
           start := if (⟨false, 500000000⟩ : Config).bg = false then 3
                    else (initState ⟨false, 500000000⟩).start,
           timeout := updateTimeout ⟨false, 500000000⟩
             (initState ⟨false, 500000000⟩).timeout (.ok 1600),
           timer := { pending := false,
                      armed := some (3 + updateTimeout ⟨false, 500000000⟩
                        (initState ⟨false, 500000000⟩).timeout (.ok 1600)) } },
         { noOut with ran := true, arms := 1 })) :=
  sleep_while_idle ⟨false, 500000000⟩ (initState ⟨false, 500000000⟩) 3
    true (.ok 1600) ⟨[], rfl⟩ rfl

/-- C5: handling a command-termination event sets
`running = false`.  In background mode the event never touches
the release timer and `locked` is unchanged.  In foreground mode,
if `locked = true`, the current timer is stopped, a pending
expiry is drained, and the timer is rearmed to fire after
`min(conf.delay, start + timeout - now)` when the command
succeeded and immediately otherwise. -/
theorem command_terminated (conf : Config) (s : State) (now : Int)
    (ok : Bool) (hr : Reachable conf s) :
    (step conf s now (.stopped ok)).1.running = false ∧
    (conf.bg = true →
      step conf s now (.stopped ok) = ({ s with running := false }, noOut)) ∧
    (conf.bg = false → s.locked = true →
      step conf s now (.stopped ok) =
        ({ s with
            running := false
            timer := { pending := false,
                       armed := some (now +
                         (if ok = true
                          then min conf.delay (s.start + s.timeout - now)
                          else 0)) } },
         { noOut with arms := 1 })) := by
  obtain ⟨h1, h2⟩ := reachable_inv conf s hr
  refine ⟨?_, ?_, ?_⟩ <;>
    rcases hb : conf.bg <;> rcases hl : s.locked <;> rcases hok : ok <;>
    rcases hp : s.timer.pending <;> rcases ha : s.timer.armed with _ | d <;>
    simp_all [step, Timer.stopDrain, Timer.reset, min_def] <;>
    split_ifs <;> omega

/-- Witness for `command_terminated` at the locked running state
reached by a successful Sleep launch, in foreground mode. -/
theorem command_terminated_witness :
    (step ⟨false, 500000000⟩
        { locked := true, running := true, start := 0,
          timeout := 4687500000,
          timer := { pending := false, armed := some 4687500000 } } 1000
        (.stopped true)).1.running = false ∧
    ((false : Bool) = true →
      step ⟨false, 500000000⟩
        { locked := true, running := true, start := 0,
          timeout := 4687500000,
          timer := { pending := false, armed := some 4687500000 } } 1000
        (.stopped true) =
        ({ { locked := true, running := true, start := 0,
             timeout := 4687500000,
             timer := { pending := false, armed := some 4687500000 } :
             State } with running := false }, noOut)) ∧
    ((false : Bool) = false → (true : Bool) = true →
      step ⟨false, 500000000⟩
        { locked := true, running := true, start := 0,
          timeout := 4687500000,
          timer := { pending := false, armed := some 4687500000 } } 1000
        (.stopped true) =
        ({ locked := true, running := false, start := 0,
           timeout := 4687500000,
           timer := { pending := false,
                      armed := some (1000 +
                        (if (true : Bool) = true
                         then min (500000000 : Int) (0 + 4687500000 - 1000)
                         else 0)) } },
         { noOut with arms := 1 })) :=
  command_terminated ⟨false, 500000000⟩
    { locked := true, running := true, start := 0, timeout := 4687500000,
      timer := { pending := false, armed := some 4687500000 } } 1000 true
    ⟨[(0, .signal (.sleep true (.error .other)))], by decide⟩

/-- The buffer size of the command-status channel
`stopped = make(chan error)` (part_000 line 191): Go's `make`
with no size argument creates an unbuffered channel. -/
def stoppedChanCap : Nat := 0

/-- C8 counterexample: the command-termination channel is not
created with a buffer of at least 1 — it is unbuffered. -/
theorem stopped_chan_not_buffered : ¬ (1 ≤ stoppedChanCap) := by
  decide

/-- C8 (amended): the command-termination channel is created
unbuffered (capacity 0), so the auxiliary process-wait task's
send rendezvouses with the loop; the outcome is consumed in a
loop iteration, which always clears `running`. -/
theorem stopped_chan_unbuffered :
    stoppedChanCap = 0 ∧
    ∀ (conf : Config) (s : State) (now : Int) (ok : Bool),
      (step conf s now (.stopped ok)).1.running = false := by
  refine ⟨rfl, fun conf s now ok => ?_⟩
  rcases hl : s.locked <;> rcases hb : conf.bg <;>
    simp [step, hl, hb]

/-- `sdPath`: the systemd logind object path. -/
def sdPath : String := "/org/freedesktop/login1"

/-- `sdSigName`: the full name of the PrepareForSleep signal. -/
def sdSigName : String := "org.freedesktop.login1.Manager.PrepareForSleep"

/-- A D-Bus body element as the backends inspect it: either a
well-typed boolean or anything else (the failed type
assertion). -/
inductive DBusValue
  | boolean (b : Bool)
  | other
  deriving Repr, DecidableEq

/-- The parts of a `dbus.Signal` the backends read. -/
structure DBusSignal where
  path : String
  name : String
  body : List DBusValue
  deriving Repr, DecidableEq

/-- systemd `Handle` (part_003 lines 88-105): reject signals not
matching the logind path / PrepareForSleep name or lacking a
body; reject a non-boolean first body element; on a wakeup
(payload `false`) re-inhibit, reporting its error; on sleep
(payload `true`) return the sleep classification.  The result of
the `be.inhibit()` side call is passed in as `inhibitRes`. -/
def SystemdBackend.Handle (inhibitRes : Option GoError)
    (sig : DBusSignal) : Bool × Option GoError :=
  if sig.path ≠ sdPath ∨ sig.name ≠ sdSigName ∨ sig.body.length < 1 then
    (false, some .dbusSignal)
  else
    match sig.body.head? with
    | some (.boolean sleep) =>
        if sleep = false then (sleep, inhibitRes) else (sleep, none)
    | _ => (false, some .dbusSignal)

/-- debug `Handle` (src/debug.go lines 122-128): classify by the
signal name alone; any signal not named "sleep" counts as wakeup
and triggers the error-free debug re-inhibit; no error is ever
returned. -/
def DebugBackend.Handle (sig : DBusSignal) : Bool × Option GoError :=
  (sig.name == "sleep", none)

/-- C9 counterexample: the debug backend violates the claim that
every backend fails with an InvalidSignal error on signals
outside its own identity filter: the foreign signal named
"reboot" is classified as a Wakeup with a nil error instead of
failing. -/
theorem debug_handle_accepts_foreign :
    ¬ ∀ sig : DBusSignal,
        (sig.name = "sleep" ∨ sig.name = "wakeup") ∨
          (DebugBackend.Handle sig).snd = some .dbusSignal := by
  intro h
  rcases h ⟨"", "reboot", []⟩ with h | h | h <;>
    simp [DebugBackend.Handle] at h

/-- C9 (amended): the systemd backend's `Handle` returns a
Sleep/Wakeup classification only for signals at the logind path
named PrepareForSleep whose first body element is a well-typed
boolean, failing with `ErrDBusSignal` for every other signal (and
reporting the re-inhibit outcome on wakeup); the debug backend's
`Handle` never fails and classifies a signal as Sleep exactly
when it is named "sleep", treating every other signal as a
wakeup. -/
theorem handle_classification (inhibitRes : Option GoError)
    (sig : DBusSignal) :
    (¬ (sig.path = sdPath ∧ sig.name = sdSigName ∧
          (∃ b, sig.body.head? = some (.boolean b))) →
      SystemdBackend.Handle inhibitRes sig = (false, some .dbusSignal)) ∧
    (∀ b : Bool, sig.path = sdPath → sig.name = sdSigName →
      sig.body.head? = some (.boolean b) →
      SystemdBackend.Handle inhibitRes sig =
        (b, if b = true then none else inhibitRes)) ∧
    (DebugBackend.Handle sig).snd = none ∧
    ((DebugBackend.Handle sig).fst = true ↔ sig.name = "sleep") := by
  refine ⟨?_, ?_, ?_, ?_⟩
  · intro h
    simp only [SystemdBackend.Handle]
    by_cases hp : sig.path = sdPath
    · by_cases hn : sig.name = sdSigName
      · rcases hb : sig.body with _ | ⟨v, rest⟩
        · simp [hb]
        · rcases v with b | _
          · exact absurd ⟨hp, hn, b, by simp [hb]⟩ h
          · simp [hp, hn, hb]
      · simp [hn]
    · simp [hp]
  · intro b hp hn hv
    have hlen : ¬ sig.body.length < 1 := by
      rcases hb : sig.body with _ | ⟨v, rest⟩ <;> simp [hb] at hv ⊢
    simp [SystemdBackend.Handle, hp, hn, hlen, hv]
    rcases b <;> simp
  · rfl
  · simp [DebugBackend.Handle]

/-- Witness for `handle_classification`: a matching sleep signal
is classified as Sleep with no error, and a foreign signal fails
with `ErrDBusSignal`. -/
theorem handle_classification_witness :
    SystemdBackend.Handle none
      ⟨"/org/freedesktop/login1",
       "org.freedesktop.login1.Manager.PrepareForSleep",
       [.boolean true]⟩ = (true, none) ∧
    SystemdBackend.Handle none ⟨"/x", "y", []⟩ =
      (false, some .dbusSignal) := by
  constructor
  · have h := (handle_classification none
      ⟨"/org/freedesktop/login1",
       "org.freedesktop.login1.Manager.PrepareForSleep",
       [.boolean true]⟩).2.1 true rfl rfl rfl
    simpa using h
  · exact (handle_classification none ⟨"/x", "y", []⟩).1
      (by simp [sdPath])

end Ussssr
